import Mathlib

/-
  Shallow embedding of the az_token_sale ink! contract (src/lib.rs, src/errors.rs).

  Machine integers: `Balance` is u128 in the source; we model amounts as `Nat`
  and make every u128 overflow point explicit: a checked multiplication that
  would exceed `U128_LIMIT` aborts (ink! contracts are built with
  overflow-checks enabled, so an overflowing `*` panics), and `U256::as_u128`
  aborts when the value does not fit into 128 bits.  These aborts are the
  `panic` outcome of `CallResult`.

  External collaborators (PSP22 token, native value transfer) are modelled by
  an environment carrying the balance-query answer and a success/failure
  outcome for each transfer the call may attempt; every attempted external
  call is recorded, in order, in a trace of `Eff` values.
-/

namespace AzTokenSale

/-- 2^128: first value that no longer fits into the u128 `Balance` type. -/
def U128_LIMIT : Nat := 2 ^ 128

/-- src/errors.rs `AZTokenSaleError`.  The `Unauthorised` variant is returned by
`authorise` in src/lib.rs (and asserted by its e2e tests), so it is part of the
error enum even though the snapshotted errors.rs omits it.  The payloads of
`ContractCall` and `PSP22Error` are opaque here. -/
inductive AZTokenSaleError
  | ContractCall (code : Nat)
  | InkEnvError (msg : String)
  | PSP22Error (code : Nat)
  | UnprocessableEntity (msg : String)
  | Unauthorised
  deriving DecidableEq, Repr

/-- src/lib.rs `AZTokenSale` storage struct: exactly these four fields, nothing
else is persisted. -/
structure AZTokenSale where
  admin : Nat
  out_token : Nat
  in_unit : Nat
  out_unit : Nat
  deriving DecidableEq, Repr

/-- src/lib.rs `Config` struct returned by the `config` query. -/
structure Config where
  admin : Nat
  out_token : Nat
  in_unit : Nat
  out_unit : Nat
  deriving DecidableEq, Repr

/-- src/lib.rs `config`: snapshot of the four stored fields. -/
def config (s : AZTokenSale) : Config :=
  { admin := s.admin, out_token := s.out_token,
    in_unit := s.in_unit, out_unit := s.out_unit }

/-- One attempted external call, in the order the contract issues them. -/
inductive Eff
  | balanceQuery (token : Nat)
  | azeroTransfer (recipient : Nat) (amount : Nat)
  | psp22Transfer (token : Nat) (recipient : Nat) (amount : Nat)
  | psp22TransferFrom (token : Nat) (source : Nat) (amount : Nat)
  deriving DecidableEq, Repr

/-- Outcome of a contract message: normal return, returned error, or an
arithmetic abort (u128 overflow / failed `as_u128` narrowing). -/
inductive CallResult (α : Type)
  | ok (value : α)
  | err (e : AZTokenSaleError)
  | panic
  deriving DecidableEq, Repr

/-- src/lib.rs `authorise`. -/
def authorise (allowed received : Nat) : Except AZTokenSaleError Unit :=
  if allowed ≠ received then .error .Unauthorised else .ok ()

/-- src/lib.rs `transfer_azero`: the environment decides whether the native
transfer succeeds; a failure becomes `UnprocessableEntity "Insufficient AZERO
balance"`. -/
def transfer_azero (succeeds : Bool) : Except AZTokenSaleError Unit :=
  if succeeds then .ok ()
  else .error (.UnprocessableEntity "Insufficient AZERO balance")

/-- Environment of one `buy` call: caller identity, the transferred native
value, the answer the PSP22 token gives to `balance_of(contract)`, and the
outcome of each external transfer the call may attempt. -/
structure BuyEnv where
  caller : Nat
  transferred_value : Nat
  contract_balance : Nat
  refund_ok : Bool
  out_transfer_err : Option AZTokenSaleError
  proceeds_ok : Bool
  deriving DecidableEq, Repr

/-- Tail of `buy` from the out-token transfer on (src/lib.rs lines 108-119):
recompute the exact output via U256 then narrow, transfer the out token to the
caller, then send the settled native amount to the admin. -/
def buy_settle (s : AZTokenSale) (env : BuyEnv) (in_amount : Nat)
    (tr : List Eff) : CallResult (Nat × Nat) × List Eff :=
  if U128_LIMIT ≤ in_amount * s.out_unit / s.in_unit then (.panic, tr)
  else
    match env.out_transfer_err with
    | some e =>
        (.err e,
         tr ++ [.psp22Transfer s.out_token env.caller
                  (in_amount * s.out_unit / s.in_unit)])
    | none =>
        match transfer_azero env.proceeds_ok with
        | .error e =>
            (.err e,
             tr ++ [.psp22Transfer s.out_token env.caller
                      (in_amount * s.out_unit / s.in_unit),
                    .azeroTransfer s.admin in_amount])
        | .ok _ =>
            (.ok (in_amount, in_amount * s.out_unit / s.in_unit),
             tr ++ [.psp22Transfer s.out_token env.caller
                      (in_amount * s.out_unit / s.in_unit),
                    .azeroTransfer s.admin in_amount])

/-- Refund step of `buy` (src/lib.rs lines 101-106): when the settled amount is
below the paid amount, refund the difference to the caller before settling. -/
def buy_refund (s : AZTokenSale) (env : BuyEnv) (in_amount max_in : Nat)
    (tr : List Eff) : CallResult (Nat × Nat) × List Eff :=
  if max_in < in_amount then
    match transfer_azero env.refund_ok with
    | .error e => (.err e, tr ++ [.azeroTransfer env.caller (in_amount - max_in)])
    | .ok _ =>
        buy_settle s env max_in (tr ++ [.azeroTransfer env.caller (in_amount - max_in)])
  else buy_settle s env in_amount tr

/-- src/lib.rs `buy`.  Faithful step order: amount validation (short-circuit:
`in_amount == 0` is checked before the `%`, so `in_unit = 0` with a nonzero
amount aborts on `% 0`), balance query, sold-out check, checked u128
computation of `desired_out_amount`, fill-size decision with U256 scaling and
`as_u128` narrowing in the partial branch, refund, settle. -/
def buy (s : AZTokenSale) (env : BuyEnv) :
    CallResult (Nat × Nat) × List Eff :=
  if env.transferred_value = 0 then
    (.err (.UnprocessableEntity "In amount must be in multiples of in_unit"), [])
  else if s.in_unit = 0 then (.panic, [])
  else if env.transferred_value % s.in_unit > 0 then
    (.err (.UnprocessableEntity "In amount must be in multiples of in_unit"), [])
  else if env.contract_balance = 0 then
    (.err (.UnprocessableEntity "Sold out"), [.balanceQuery s.out_token])
  else if U128_LIMIT ≤ env.transferred_value * s.out_unit then
    (.panic, [.balanceQuery s.out_token])
  else if env.transferred_value * s.out_unit / s.in_unit ≤ env.contract_balance then
    buy_refund s env env.transferred_value env.transferred_value
      [.balanceQuery s.out_token]
  else if U128_LIMIT ≤ env.transferred_value * env.contract_balance
      / (env.transferred_value * s.out_unit / s.in_unit) then
    (.panic, [.balanceQuery s.out_token])
  else
    buy_refund s env env.transferred_value
      (env.transferred_value * env.contract_balance
        / (env.transferred_value * s.out_unit / s.in_unit))
      [.balanceQuery s.out_token]

/-- src/lib.rs `add_amount_for_sale`: authorisation, divisibility check against
`out_unit` (short-circuit as in `buy`), then `acquire_psp22` pulls the amount
from the caller into contract custody. -/
def add_amount_for_sale (s : AZTokenSale) (caller : Nat) (amount : Nat)
    (transfer_from_err : Option AZTokenSaleError) : CallResult Unit × List Eff :=
  match authorise s.admin caller with
  | .error e => (.err e, [])
  | .ok _ =>
    if amount = 0 then
      (.err (.UnprocessableEntity "Amount must be in multiples of out_unit"), [])
    else if s.out_unit = 0 then (.panic, [])
    else if amount % s.out_unit > 0 then
      (.err (.UnprocessableEntity "Amount must be in multiples of out_unit"), [])
    else
      match transfer_from_err with
      | some e => (.err e, [.psp22TransferFrom s.out_token caller amount])
      | none => (.ok (), [.psp22TransferFrom s.out_token caller amount])

/-- Native value refunded to `caller` during a `buy` trace: the azero transfers
to the caller issued before the out-token transfer (the proceeds transfer to
the admin comes after it, so it is never counted, even when the admin is the
caller). -/
def refundOf : List Eff → Nat → Nat
  | [], _ => 0
  | .azeroTransfer r a :: rest, caller =>
      (if r = caller then a else 0) + refundOf rest caller
  | .psp22Transfer _ _ _ :: _, _ => 0
  | _ :: rest, caller => refundOf rest caller

/-- The post-call storage of `buy`: the Rust body never assigns to any `self`
field, so the storage is returned unchanged. -/
def buy_post_state (s : AZTokenSale) (_env : BuyEnv) : AZTokenSale := s

/-- The post-call storage of `add_amount_for_sale`: the Rust body never assigns
to any `self` field. -/
def add_amount_for_sale_post_state (s : AZTokenSale) (_caller : Nat)
    (_amount : Nat) (_tf : Option AZTokenSaleError) : AZTokenSale := s

/-- One public mutable-receiver message of the contract. -/
inductive Call
  | buyCall (env : BuyEnv)
  | addCall (caller : Nat) (amount : Nat)
      (tf : Option AZTokenSaleError)

/-- Storage after executing one public message. -/
def step (s : AZTokenSale) : Call → AZTokenSale
  | .buyCall env => buy_post_state s env
  | .addCall caller amount tf =>
      add_amount_for_sale_post_state s caller amount tf

/-- Storage after a sequence of public messages. -/
def exec (s : AZTokenSale) (calls : List Call) : AZTokenSale :=
  calls.foldl step s

/-! ### Arithmetic helper lemmas -/

/-- When the denominator exceeds the scaling factor, the scaled-down quotient
drops below the numerator's first factor: `tv * cb / d < tv` for `cb < d`. -/
theorem div_lt_of_lt_den (tv cb d : Nat) (htv : 0 < tv) (hlt : cb < d) :
    tv * cb / d < tv := by
  have hd : 0 < d := Nat.lt_of_le_of_lt (Nat.zero_le cb) hlt
  rw [Nat.div_lt_iff_lt_mul hd]
  exact mul_lt_mul_of_pos_left hlt htv

/-- Key partial-fill bound: with `d = tv * ou / iu` and `cb < d`, the
recomputed output `(tv * cb / d) * ou / iu` never exceeds the custody
balance `cb`. -/
theorem partial_out_le (iu ou tv cb : Nat) (hiu : 0 < iu) (hcb : 0 < cb)
    (hlt : cb < tv * ou / iu) :
    tv * cb / (tv * ou / iu) * ou / iu ≤ cb := by
  set d := tv * ou / iu with hd
  set m := tv * cb / d with hm
  have hd0 : 0 < d := Nat.lt_of_le_of_lt (Nat.zero_le cb) hlt
  have h1 : m * d ≤ tv * cb := by
    rw [hm]; exact Nat.div_mul_le_self _ _
  have h2 : tv * ou < (d + 1) * iu := by
    calc tv * ou = iu * d + tv * ou % iu := by rw [hd, Nat.div_add_mod]
      _ < iu * d + iu := Nat.add_lt_add_left (Nat.mod_lt _ hiu) _
      _ = (d + 1) * iu := by ring
  have key : m * ou * d < (cb + 1) * iu * d := by
    have h3 : m * ou * d ≤ tv * cb * ou := by
      calc m * ou * d = m * d * ou := by ring
        _ ≤ tv * cb * ou := Nat.mul_le_mul_right ou h1
    have h4 : cb * (tv * ou) < cb * ((d + 1) * iu) :=
      mul_lt_mul_of_pos_left h2 hcb
    have h5 : cb * ((d + 1) * iu) ≤ (cb + 1) * iu * d := by
      have h6 : cb * iu ≤ d * iu := Nat.mul_le_mul_right iu (Nat.le_of_lt hlt)
      nlinarith [h6]
    calc m * ou * d ≤ tv * cb * ou := h3
      _ = cb * (tv * ou) := by ring
      _ < cb * ((d + 1) * iu) := h4
      _ ≤ (cb + 1) * iu * d := h5
  have h7 : m * ou < (cb + 1) * iu := lt_of_mul_lt_mul_right key (Nat.zero_le d)
  have h8 : m * ou / iu < cb + 1 := (Nat.div_lt_iff_lt_mul hiu).mpr h7
  omega

/-- Product of two u128 values fits in 256 bits. -/
theorem mul_lt_u256 (a b : Nat) (ha : a < U128_LIMIT) (hb : b < U128_LIMIT) :
    a * b < 2 ^ 256 := by
  have h : a * b ≤ (2 ^ 128 - 1) * (2 ^ 128 - 1) := by
    unfold U128_LIMIT at ha hb
    exact Nat.mul_le_mul (by omega) (by omega)
  calc a * b ≤ (2 ^ 128 - 1) * (2 ^ 128 - 1) := h
    _ < 2 ^ 256 := by norm_num

/-! ### Claim theorems -/

/-- C6: for every caller, `buy` with a paid native amount that is zero or not
an exact multiple of `in_unit` returns
`UnprocessableEntity "In amount must be in multiples of in_unit"` with an empty
effect trace: no balance query and no transfer of any kind is performed. -/
theorem buy_invalid_in_amount (s : AZTokenSale) (env : BuyEnv)
    (hiu : 0 < s.in_unit)
    (h : env.transferred_value = 0 ∨ env.transferred_value % s.in_unit ≠ 0) :
    buy s env =
      (.err (.UnprocessableEntity "In amount must be in multiples of in_unit"),
       []) := by
  unfold buy
  have hiu' : ¬ s.in_unit = 0 := by omega
  rcases h with h0 | hmod
  · rw [if_pos h0]
  · have h0 : ¬ env.transferred_value = 0 := by
      intro hz
      exact hmod (by simp [hz])
    rw [if_neg h0, if_neg hiu', if_pos (Nat.pos_of_ne_zero hmod)]

/-- Witness for C6 at a concrete input: zero paid amount. -/
theorem buy_invalid_in_amount_witness :
    buy ⟨0, 1, 250, 1⟩ ⟨2, 0, 5, true, none, true⟩ =
      (.err (.UnprocessableEntity "In amount must be in multiples of in_unit"),
       []) :=
  buy_invalid_in_amount ⟨0, 1, 250, 1⟩ ⟨2, 0, 5, true, none, true⟩
    (by decide) (Or.inl rfl)

/-- C7: for every caller, `buy` with a positive multiple of `in_unit` while the
custody balance of the out token is zero returns
`UnprocessableEntity "Sold out"`, the trace holding only the balance query and
no transfer. -/
theorem buy_sold_out (s : AZTokenSale) (env : BuyEnv)
    (hiu : 0 < s.in_unit) (hnz : env.transferred_value ≠ 0)
    (hmul : env.transferred_value % s.in_unit = 0)
    (hcb : env.contract_balance = 0) :
    buy s env =
      (.err (.UnprocessableEntity "Sold out"), [.balanceQuery s.out_token]) := by
  unfold buy
  have hiu' : ¬ s.in_unit = 0 := by omega
  have hmod' : ¬ env.transferred_value % s.in_unit > 0 := by omega
  rw [if_neg hnz, if_neg hiu', if_neg hmod', if_pos hcb]

/-- Witness for C7 at a concrete input. -/
theorem buy_sold_out_witness :
    buy ⟨0, 1, 250, 1⟩ ⟨2, 500, 0, true, none, true⟩ =
      (.err (.UnprocessableEntity "Sold out"), [.balanceQuery 1]) :=
  buy_sold_out ⟨0, 1, 250, 1⟩ ⟨2, 500, 0, true, none, true⟩
    (by decide) (by decide) (by decide) rfl

/-- C8: `add_amount_for_sale` called by any identity other than the admin
returns `Unauthorised` with an empty effect trace: no transfer-from and no
other effect. -/
theorem add_amount_for_sale_unauthorised (s : AZTokenSale)
    (caller : Nat) (amount : Nat)
    (tf : Option AZTokenSaleError) (h : caller ≠ s.admin) :
    add_amount_for_sale s caller amount tf = (.err .Unauthorised, []) := by
  have h' : s.admin ≠ caller := Ne.symm h
  simp [add_amount_for_sale, authorise, h']

/-- Witness for C8 at a concrete input. -/
theorem add_amount_for_sale_unauthorised_witness :
    add_amount_for_sale ⟨0, 1, 250, 5⟩ 9 10 none = (.err .Unauthorised, []) :=
  add_amount_for_sale_unauthorised ⟨0, 1, 250, 5⟩ 9 10 none (by decide)

/-- C9: for the admin caller, `add_amount_for_sale` with an amount that is zero
or not a multiple of `out_unit` returns the out_unit-multiples
`UnprocessableEntity` error with no transfer; with a nonzero exact multiple it
performs exactly one transfer-from of that amount from the admin into custody
and returns success, and a transfer failure is propagated as the returned
error. -/
theorem add_amount_for_sale_admin (s : AZTokenSale) (caller : Nat)
    (amount : Nat) (tf : Option AZTokenSaleError)
    (hadmin : caller = s.admin) (hou : 0 < s.out_unit) :
    (amount = 0 ∨ amount % s.out_unit ≠ 0 →
      add_amount_for_sale s caller amount tf =
        (.err (.UnprocessableEntity "Amount must be in multiples of out_unit"),
         [])) ∧
    (amount ≠ 0 → amount % s.out_unit = 0 → tf = none →
      add_amount_for_sale s caller amount tf =
        (.ok (), [.psp22TransferFrom s.out_token caller amount])) ∧
    (∀ e, amount ≠ 0 → amount % s.out_unit = 0 → tf = some e →
      add_amount_for_sale s caller amount tf =
        (.err e, [.psp22TransferFrom s.out_token caller amount])) := by
  have h' : ¬ s.admin ≠ caller := by simp [hadmin]
  have hou' : ¬ s.out_unit = 0 := by omega
  refine ⟨?_, ?_, ?_⟩
  · intro h
    rcases h with h0 | hmod
    · simp [add_amount_for_sale, authorise, h', h0]
    · have h0 : amount ≠ 0 := by
        intro hz
        exact hmod (by simp [hz])
      simp [add_amount_for_sale, authorise, h', h0, hou',
        Nat.pos_of_ne_zero hmod]
  · intro h0 hmod htf
    simp [add_amount_for_sale, authorise, h', h0, hmod, htf, hou']
  · intro e h0 hmod htf
    simp [add_amount_for_sale, authorise, h', h0, hmod, htf, hou']

/-- C2: in the partial-fill branch (positive custody balance strictly below
`desiredOutAmount = paid * out_unit / in_unit`), `buy` settles exactly
`paid * custodyBalance / desiredOutAmount` (floor), refunds
`paid - settled` to the caller, and the wide arithmetic never overflows: the
intermediate product fits in 256 bits and the quotient fits back into u128
(so the `as_u128` narrowing never aborts). -/
theorem buy_partial_fill (s : AZTokenSale) (env : BuyEnv)
    (hiu : 0 < s.in_unit) (hou : 0 < s.out_unit)
    (htv : env.transferred_value < U128_LIMIT)
    (hcb : env.contract_balance < U128_LIMIT)
    (hnz : env.transferred_value ≠ 0)
    (hmul : env.transferred_value % s.in_unit = 0)
    (hcb0 : 0 < env.contract_balance)
    (hdo : env.transferred_value * s.out_unit < U128_LIMIT)
    (hpart : env.contract_balance
        < env.transferred_value * s.out_unit / s.in_unit)
    (hrefund : env.refund_ok = true)
    (hpsp : env.out_transfer_err = none)
    (hproc : env.proceeds_ok = true) :
    buy s env =
      (.ok (env.transferred_value * env.contract_balance
              / (env.transferred_value * s.out_unit / s.in_unit),
            env.transferred_value * env.contract_balance
              / (env.transferred_value * s.out_unit / s.in_unit)
              * s.out_unit / s.in_unit),
       [.balanceQuery s.out_token,
        .azeroTransfer env.caller
          (env.transferred_value
            - env.transferred_value * env.contract_balance
              / (env.transferred_value * s.out_unit / s.in_unit)),
        .psp22Transfer s.out_token env.caller
          (env.transferred_value * env.contract_balance
            / (env.transferred_value * s.out_unit / s.in_unit)
            * s.out_unit / s.in_unit),
        .azeroTransfer s.admin
          (env.transferred_value * env.contract_balance
            / (env.transferred_value * s.out_unit / s.in_unit))]) ∧
    env.transferred_value * env.contract_balance < 2 ^ 256 ∧
    env.transferred_value * env.contract_balance
      / (env.transferred_value * s.out_unit / s.in_unit) < U128_LIMIT := by
  have htv0 : 0 < env.transferred_value := Nat.pos_of_ne_zero hnz
  have hiu' : ¬ s.in_unit = 0 := Nat.pos_iff_ne_zero.mp hiu
  have hcb0' : ¬ env.contract_balance = 0 := Nat.pos_iff_ne_zero.mp hcb0
  have hdo' : ¬ U128_LIMIT ≤ env.transferred_value * s.out_unit :=
    not_le.mpr hdo
  have hfull' : ¬ env.transferred_value * s.out_unit / s.in_unit
      ≤ env.contract_balance := not_le.mpr hpart
  have hm_lt : env.transferred_value * env.contract_balance
      / (env.transferred_value * s.out_unit / s.in_unit)
      < env.transferred_value :=
    div_lt_of_lt_den _ _ _ htv0 hpart
  have hnarrow : env.transferred_value * env.contract_balance
      / (env.transferred_value * s.out_unit / s.in_unit) < U128_LIMIT :=
    lt_trans hm_lt htv
  have hnarrow' : ¬ U128_LIMIT ≤ env.transferred_value * env.contract_balance
      / (env.transferred_value * s.out_unit / s.in_unit) := not_le.mpr hnarrow
  have hout_le : env.transferred_value * env.contract_balance
      / (env.transferred_value * s.out_unit / s.in_unit)
      * s.out_unit / s.in_unit ≤ env.contract_balance :=
    partial_out_le s.in_unit s.out_unit env.transferred_value
      env.contract_balance hiu hcb0 hpart
  have hsettle' : ¬ U128_LIMIT ≤ env.transferred_value * env.contract_balance
      / (env.transferred_value * s.out_unit / s.in_unit)
      * s.out_unit / s.in_unit := not_le.mpr (lt_of_le_of_lt hout_le hcb)
  refine ⟨?_, mul_lt_u256 _ _ htv hcb, hnarrow⟩
  simp [buy, buy_refund, buy_settle, transfer_azero, hrefund, hpsp, hproc,
    hnz, hiu', hmul, hcb0', hdo', hfull', hnarrow', hm_lt, hsettle']

/-- Witness for C2 at the spec's Scenario B: in_unit 250, out_unit 1, custody
3, payment 1250 settles 750, delivers 3 and refunds 500. -/
theorem buy_partial_fill_witness :
    buy ⟨0, 1, 250, 1⟩ ⟨2, 1250, 3, true, none, true⟩ =
      (.ok (750, 3),
       [.balanceQuery 1, .azeroTransfer 2 500, .psp22Transfer 1 2 3,
        .azeroTransfer 0 750]) := by
  have h := (buy_partial_fill ⟨0, 1, 250, 1⟩ ⟨2, 1250, 3, true, none, true⟩
    (by decide) (by decide) (by decide) (by decide) (by decide) (by decide)
    (by decide) (by decide) (by decide) rfl rfl rfl).1
  simpa using h

/-- C3: in the full-fill branch (custody balance at least
`desiredOutAmount`), `buy` settles the full paid amount, transfers and returns
exactly `paid * out_unit / in_unit` output tokens, and issues no refund
transfer: the trace holds only the balance query, the out-token transfer to the
caller and the proceeds transfer to the admin. -/
theorem buy_full_fill (s : AZTokenSale) (env : BuyEnv)
    (hiu : 0 < s.in_unit) (hou : 0 < s.out_unit)
    (hnz : env.transferred_value ≠ 0)
    (hmul : env.transferred_value % s.in_unit = 0)
    (hcb0 : 0 < env.contract_balance)
    (hdo : env.transferred_value * s.out_unit < U128_LIMIT)
    (hfull : env.transferred_value * s.out_unit / s.in_unit
        ≤ env.contract_balance)
    (hpsp : env.out_transfer_err = none)
    (hproc : env.proceeds_ok = true) :
    buy s env =
      (.ok (env.transferred_value,
            env.transferred_value * s.out_unit / s.in_unit),
       [.balanceQuery s.out_token,
        .psp22Transfer s.out_token env.caller
          (env.transferred_value * s.out_unit / s.in_unit),
        .azeroTransfer s.admin env.transferred_value]) := by
  have hiu' : ¬ s.in_unit = 0 := Nat.pos_iff_ne_zero.mp hiu
  have hcb0' : ¬ env.contract_balance = 0 := Nat.pos_iff_ne_zero.mp hcb0
  have hdo' : ¬ U128_LIMIT ≤ env.transferred_value * s.out_unit :=
    not_le.mpr hdo
  have hsettle' : ¬ U128_LIMIT
      ≤ env.transferred_value * s.out_unit / s.in_unit :=
    not_le.mpr (lt_of_le_of_lt (Nat.div_le_self _ _) hdo)
  simp [buy, buy_refund, buy_settle, transfer_azero, hpsp, hproc, hnz, hiu',
    hmul, hcb0', hdo', hfull, hsettle']

/-- Witness for C3 at the spec's Scenario A: in_unit 250, out_unit 1, large
custody, payment 250 delivers 1 token to the buyer and 250 native units to the
admin with no refund. -/
theorem buy_full_fill_witness :
    buy ⟨0, 1, 250, 1⟩ ⟨2, 250, 1000000000000000000, true, none, true⟩ =
      (.ok (250, 1),
       [.balanceQuery 1, .psp22Transfer 1 2 1, .azeroTransfer 0 250]) := by
  have h := buy_full_fill ⟨0, 1, 250, 1⟩
    ⟨2, 250, 1000000000000000000, true, none, true⟩
    (by decide) (by decide) (by decide) (by decide) (by decide) (by decide)
    (by decide) rfl rfl
  simpa using h

/-- C4 counterexample: with in_unit 1, out_unit 2, a paid amount of 2^127
(positive, a multiple of in_unit, representable in u128) and custody balance 1,
the un-widened multiplication `paidNativeAmount * out_unit` reaches 2^128 and
`buy` aborts at the `desired_out_amount` step, refuting the claim that this
multiplication never exceeds the 128-bit range. -/
theorem buy_desired_overflow_counterexample :
    0 < 2 ^ 127 ∧ 2 ^ 127 % 1 = 0 ∧ 2 ^ 127 < U128_LIMIT ∧
    buy ⟨0, 1, 1, 2⟩ ⟨2, 2 ^ 127, 1, true, none, true⟩ =
      (.panic, [.balanceQuery 1]) := by
  refine ⟨by norm_num, by norm_num, by norm_num [U128_LIMIT], ?_⟩
  decide

/-- C4 (amended): the plain u128 multiplication `paid * out_unit` computed
before the fill-size branch does not overflow, and `buy` never aborts at any
arithmetic step, precisely when `paid * out_unit` fits in 128 bits; without
that bound the step can overflow (see the counterexample). -/
theorem buy_no_panic (s : AZTokenSale) (env : BuyEnv)
    (hiu : 0 < s.in_unit)
    (hnz : 0 < env.transferred_value)
    (hmul : env.transferred_value % s.in_unit = 0)
    (hcb0 : 0 < env.contract_balance)
    (htv : env.transferred_value < U128_LIMIT)
    (hcb : env.contract_balance < U128_LIMIT)
    (hbound : env.transferred_value * s.out_unit < U128_LIMIT) :
    (buy s env).1 ≠ .panic := by
  have hiu' : ¬ s.in_unit = 0 := Nat.pos_iff_ne_zero.mp hiu
  unfold buy
  by_cases h0 : env.transferred_value = 0
  · simp [h0]
  · rw [if_neg h0, if_neg hiu']
    by_cases hm : env.transferred_value % s.in_unit > 0
    · simp [hm, h0]
    · rw [if_neg hm]
      by_cases hc : env.contract_balance = 0
      · simp [hc, h0, hm]
      · rw [if_neg hc, if_neg (not_le.mpr hbound)]
        have hsettle1 : ¬ U128_LIMIT
            ≤ env.transferred_value * s.out_unit / s.in_unit :=
          not_le.mpr (lt_of_le_of_lt (Nat.div_le_self _ _) hbound)
        by_cases hf : env.transferred_value * s.out_unit / s.in_unit
            ≤ env.contract_balance
        · rw [if_pos hf]
          unfold buy_refund
          rw [if_neg (lt_irrefl _)]
          unfold buy_settle
          rw [if_neg hsettle1]
          cases env.out_transfer_err with
          | some e => simp
          | none => cases env.proceeds_ok <;> simp [transfer_azero]
        · rw [if_neg hf]
          have hpart : env.contract_balance
              < env.transferred_value * s.out_unit / s.in_unit := not_le.mp hf
          have htv0 : 0 < env.transferred_value := Nat.pos_of_ne_zero h0
          have hm_lt : env.transferred_value * env.contract_balance
              / (env.transferred_value * s.out_unit / s.in_unit)
              < env.transferred_value :=
            div_lt_of_lt_den _ _ _ htv0 hpart
          rw [if_neg (not_le.mpr (lt_trans hm_lt htv))]
          unfold buy_refund
          rw [if_pos hm_lt]
          have hsettle2 : ¬ U128_LIMIT
              ≤ env.transferred_value * env.contract_balance
                / (env.transferred_value * s.out_unit / s.in_unit)
                * s.out_unit / s.in_unit :=
            not_le.mpr (lt_of_le_of_lt
              (partial_out_le s.in_unit s.out_unit env.transferred_value
                env.contract_balance hiu (Nat.pos_of_ne_zero hc) hpart) hcb)
          cases env.refund_ok with
          | false => simp [transfer_azero]
          | true =>
            simp only [transfer_azero, if_true]
            unfold buy_settle
            rw [if_neg hsettle2]
            cases env.out_transfer_err with
            | some e => simp
            | none => cases env.proceeds_ok <;> simp [transfer_azero]

/-- Witness for the amended C4 theorem at a concrete input. -/
theorem buy_no_panic_witness :
    (buy ⟨0, 1, 250, 1⟩ ⟨2, 1250, 3, false, some .Unauthorised, false⟩).1
      ≠ .panic :=
  buy_no_panic ⟨0, 1, 250, 1⟩ ⟨2, 1250, 3, false, some .Unauthorised, false⟩
    (by decide) (by decide) (by decide) (by decide) (by decide) (by decide)
    (by decide)

/-- C1: conservation.  For every configuration with positive units, whenever
`buy` returns successfully, the native amount refunded to the caller plus the
returned settled native amount equals the originally paid amount, and the
returned output-token amount never exceeds the custody balance queried at the
start of the call — in both the full-fill and the partial-fill branch. -/
theorem buy_conservation (s : AZTokenSale) (env : BuyEnv)
    (hiu : 0 < s.in_unit) (hou : 0 < s.out_unit)
    (settled out_amount : Nat) (tr : List Eff)
    (hok : buy s env = (.ok (settled, out_amount), tr)) :
    refundOf tr env.caller + settled = env.transferred_value ∧
    out_amount ≤ env.contract_balance := by
  have hiu' : ¬ s.in_unit = 0 := Nat.pos_iff_ne_zero.mp hiu
  unfold buy at hok
  by_cases h0 : env.transferred_value = 0
  · rw [if_pos h0] at hok; simp at hok
  · rw [if_neg h0, if_neg hiu'] at hok
    by_cases hm : env.transferred_value % s.in_unit > 0
    · rw [if_pos hm] at hok; simp at hok
    · rw [if_neg hm] at hok
      by_cases hc : env.contract_balance = 0
      · rw [if_pos hc] at hok; simp at hok
      · rw [if_neg hc] at hok
        by_cases hov : U128_LIMIT ≤ env.transferred_value * s.out_unit
        · rw [if_pos hov] at hok; simp at hok
        · rw [if_neg hov] at hok
          by_cases hf : env.transferred_value * s.out_unit / s.in_unit
              ≤ env.contract_balance
          · -- full fill
            rw [if_pos hf] at hok
            unfold buy_refund at hok
            rw [if_neg (lt_irrefl _)] at hok
            unfold buy_settle at hok
            by_cases hs1 : U128_LIMIT
                ≤ env.transferred_value * s.out_unit / s.in_unit
            · rw [if_pos hs1] at hok; simp at hok
            · rw [if_neg hs1] at hok
              cases hte : env.out_transfer_err with
              | some e => rw [hte] at hok; simp at hok
              | none =>
                rw [hte] at hok
                cases hpr : env.proceeds_ok with
                | false => rw [hpr] at hok; simp [transfer_azero] at hok
                | true =>
                  rw [hpr] at hok
                  simp only [transfer_azero, if_true] at hok
                  simp only [Prod.mk.injEq, CallResult.ok.injEq] at hok
                  obtain ⟨⟨hs', ho'⟩, htr⟩ := hok
                  subst hs'; subst ho'; subst htr
                  refine ⟨by simp [refundOf], hf⟩
          · -- partial fill
            rw [if_neg hf] at hok
            have hpart : env.contract_balance
                < env.transferred_value * s.out_unit / s.in_unit :=
              not_le.mp hf
            have htv0 : 0 < env.transferred_value := Nat.pos_of_ne_zero h0
            have hm_lt : env.transferred_value * env.contract_balance
                / (env.transferred_value * s.out_unit / s.in_unit)
                < env.transferred_value :=
              div_lt_of_lt_den _ _ _ htv0 hpart
            by_cases hnar : U128_LIMIT ≤ env.transferred_value
                * env.contract_balance
                / (env.transferred_value * s.out_unit / s.in_unit)
            · rw [if_pos hnar] at hok; simp at hok
            · rw [if_neg hnar] at hok
              unfold buy_refund at hok
              rw [if_pos hm_lt] at hok
              cases hro : env.refund_ok with
              | false => rw [hro] at hok; simp [transfer_azero] at hok
              | true =>
                rw [hro] at hok
                simp only [transfer_azero, if_true] at hok
                unfold buy_settle at hok
                by_cases hs2 : U128_LIMIT ≤ env.transferred_value
                    * env.contract_balance
                    / (env.transferred_value * s.out_unit / s.in_unit)
                    * s.out_unit / s.in_unit
                · rw [if_pos hs2] at hok; simp at hok
                · rw [if_neg hs2] at hok
                  cases hte : env.out_transfer_err with
                  | some e => rw [hte] at hok; simp at hok
                  | none =>
                    rw [hte] at hok
                    cases hpr : env.proceeds_ok with
                    | false => rw [hpr] at hok; simp [transfer_azero] at hok
                    | true =>
                      rw [hpr] at hok
                      simp only [transfer_azero, if_true] at hok
                      simp only [Prod.mk.injEq, CallResult.ok.injEq] at hok
                      obtain ⟨⟨hs', ho'⟩, htr⟩ := hok
                      subst hs'; subst ho'; subst htr
                      constructor
                      · simp only [refundOf, List.cons_append, List.nil_append,
                          if_pos rfl, if_true, Nat.add_zero]
                        exact Nat.sub_add_cancel (Nat.le_of_lt hm_lt)
                      · exact partial_out_le s.in_unit s.out_unit
                          env.transferred_value env.contract_balance hiu
                          (Nat.pos_of_ne_zero hc) hpart

/-- Witness for C1 at the spec's Scenario B input. -/
theorem buy_conservation_witness :
    refundOf [Eff.balanceQuery 1, Eff.azeroTransfer 2 500,
      Eff.psp22Transfer 1 2 3, Eff.azeroTransfer 0 750] 2 + 750 = 1250 ∧
    3 ≤ 3 := by
  have h := buy_conservation ⟨0, 1, 250, 1⟩ ⟨2, 1250, 3, true, none, true⟩
    (by decide) (by decide) 750 3
    [Eff.balanceQuery 1, Eff.azeroTransfer 2 500, Eff.psp22Transfer 1 2 3,
     Eff.azeroTransfer 0 750] (by decide)
  simpa using h

/-- Trace shapes of `buy_settle`: it appends nothing (arithmetic abort), just
the out-token transfer, or the out-token transfer followed by the proceeds
transfer. -/
theorem buy_settle_trace (s : AZTokenSale) (env : BuyEnv) (m : Nat)
    (tr : List Eff) :
    (buy_settle s env m tr).2 = tr ∨
    (buy_settle s env m tr).2
      = tr ++ [.psp22Transfer s.out_token env.caller
          (m * s.out_unit / s.in_unit)] ∨
    (buy_settle s env m tr).2
      = tr ++ [.psp22Transfer s.out_token env.caller
          (m * s.out_unit / s.in_unit), .azeroTransfer s.admin m] := by
  unfold buy_settle transfer_azero
  by_cases h : U128_LIMIT ≤ m * s.out_unit / s.in_unit
  · rw [if_pos h]; exact Or.inl rfl
  · rw [if_neg h]
    cases env.out_transfer_err with
    | some e => exact Or.inr (Or.inl rfl)
    | none =>
      cases env.proceeds_ok with
      | false => exact Or.inr (Or.inr rfl)
      | true => exact Or.inr (Or.inr rfl)

/-- Trace shapes of `buy_refund`: either no refund is attempted and the trace
is a settle trace, or the refund is attempted and the trace stops there or
continues as a settle trace. -/
theorem buy_refund_trace (s : AZTokenSale) (env : BuyEnv) (a m : Nat)
    (tr : List Eff) :
    (buy_refund s env a m tr).2 = (buy_settle s env a tr).2 ∨
    (buy_refund s env a m tr).2 = tr ++ [.azeroTransfer env.caller (a - m)] ∨
    (buy_refund s env a m tr).2
      = (buy_settle s env m (tr ++ [.azeroTransfer env.caller (a - m)])).2 := by
  unfold buy_refund transfer_azero
  by_cases hm : m < a
  · rw [if_pos hm]
    cases env.refund_ok with
    | false => exact Or.inr (Or.inl rfl)
    | true => exact Or.inr (Or.inr rfl)
  · rw [if_neg hm]; exact Or.inl rfl

/-- Every `buy_refund` trace starting from the balance query is a prefix of
the ordered sequence query, refund, out-token transfer, proceeds. -/
theorem buy_refund_trace_shapes (s : AZTokenSale) (env : BuyEnv) (a m : Nat) :
    ∃ r out p,
      (buy_refund s env a m [.balanceQuery s.out_token]).2 = [] ∨
      (buy_refund s env a m [.balanceQuery s.out_token]).2
        = [.balanceQuery s.out_token] ∨
      (buy_refund s env a m [.balanceQuery s.out_token]).2
        = [.balanceQuery s.out_token, .azeroTransfer env.caller r] ∨
      (buy_refund s env a m [.balanceQuery s.out_token]).2
        = [.balanceQuery s.out_token, .azeroTransfer env.caller r,
           .psp22Transfer s.out_token env.caller out] ∨
      (buy_refund s env a m [.balanceQuery s.out_token]).2
        = [.balanceQuery s.out_token, .azeroTransfer env.caller r,
           .psp22Transfer s.out_token env.caller out,
           .azeroTransfer s.admin p] ∨
      (buy_refund s env a m [.balanceQuery s.out_token]).2
        = [.balanceQuery s.out_token,
           .psp22Transfer s.out_token env.caller out] ∨
      (buy_refund s env a m [.balanceQuery s.out_token]).2
        = [.balanceQuery s.out_token,
           .psp22Transfer s.out_token env.caller out,
           .azeroTransfer s.admin p] := by
  rcases buy_refund_trace s env a m [.balanceQuery s.out_token] with h | h | h
  · rcases buy_settle_trace s env a [.balanceQuery s.out_token]
        with h' | h' | h' <;> rw [h, h'] <;>
      first
        | exact ⟨0, 0, 0, Or.inr (Or.inl rfl)⟩
        | exact ⟨0, _, 0, Or.inr (Or.inr (Or.inr (Or.inr (Or.inr
            (Or.inl rfl)))))⟩
        | exact ⟨0, _, _, Or.inr (Or.inr (Or.inr (Or.inr (Or.inr
            (Or.inr rfl)))))⟩
  · rw [h]
    exact ⟨_, 0, 0, Or.inr (Or.inr (Or.inl rfl))⟩
  · rcases buy_settle_trace s env m
        ([.balanceQuery s.out_token] ++ [.azeroTransfer env.caller (a - m)])
        with h' | h' | h' <;> rw [h, h'] <;>
      first
        | exact ⟨_, 0, 0, Or.inr (Or.inr (Or.inl rfl))⟩
        | exact ⟨_, _, 0, Or.inr (Or.inr (Or.inr (Or.inl rfl)))⟩
        | exact ⟨_, _, _, Or.inr (Or.inr (Or.inr (Or.inr (Or.inl rfl))))⟩

/-- C5: in every execution of `buy` the external calls happen in the fixed
order balance query, refund to the caller (only on a partial fill), out-token
transfer to the caller, proceeds to the admin — every trace is one of the
prefixes of that sequence.  If the refund transfer fails, `buy` returns
`UnprocessableEntity "Insufficient AZERO balance"` and attempts neither of the
two later transfers; if the out-token transfer fails, `buy` propagates that
error and does not attempt the proceeds transfer to the admin. -/
theorem buy_transfer_order (s : AZTokenSale) (env : BuyEnv) :
    (∃ r out p,
      (buy s env).2 = [] ∨
      (buy s env).2 = [.balanceQuery s.out_token] ∨
      (buy s env).2 = [.balanceQuery s.out_token,
        .azeroTransfer env.caller r] ∨
      (buy s env).2 = [.balanceQuery s.out_token, .azeroTransfer env.caller r,
        .psp22Transfer s.out_token env.caller out] ∨
      (buy s env).2 = [.balanceQuery s.out_token, .azeroTransfer env.caller r,
        .psp22Transfer s.out_token env.caller out,
        .azeroTransfer s.admin p] ∨
      (buy s env).2 = [.balanceQuery s.out_token,
        .psp22Transfer s.out_token env.caller out] ∨
      (buy s env).2 = [.balanceQuery s.out_token,
        .psp22Transfer s.out_token env.caller out,
        .azeroTransfer s.admin p]) ∧
    (env.transferred_value ≠ 0 → 0 < s.in_unit →
      env.transferred_value % s.in_unit = 0 → env.contract_balance ≠ 0 →
      env.transferred_value * s.out_unit < U128_LIMIT →
      env.contract_balance < env.transferred_value * s.out_unit / s.in_unit →
      env.transferred_value < U128_LIMIT →
      env.refund_ok = false →
      buy s env =
        (.err (.UnprocessableEntity "Insufficient AZERO balance"),
         [.balanceQuery s.out_token,
          .azeroTransfer env.caller
            (env.transferred_value - env.transferred_value
              * env.contract_balance
              / (env.transferred_value * s.out_unit / s.in_unit))])) ∧
    (∀ e, env.transferred_value ≠ 0 → 0 < s.in_unit →
      env.transferred_value % s.in_unit = 0 → env.contract_balance ≠ 0 →
      env.transferred_value * s.out_unit < U128_LIMIT →
      env.transferred_value * s.out_unit / s.in_unit ≤ env.contract_balance →
      env.out_transfer_err = some e →
      buy s env =
        (.err e,
         [.balanceQuery s.out_token,
          .psp22Transfer s.out_token env.caller
            (env.transferred_value * s.out_unit / s.in_unit)])) ∧
    (∀ e, env.transferred_value ≠ 0 → 0 < s.in_unit →
      env.transferred_value % s.in_unit = 0 → env.contract_balance ≠ 0 →
      env.transferred_value * s.out_unit < U128_LIMIT →
      env.contract_balance < env.transferred_value * s.out_unit / s.in_unit →
      env.transferred_value < U128_LIMIT →
      env.contract_balance < U128_LIMIT →
      env.refund_ok = true → env.out_transfer_err = some e →
      buy s env =
        (.err e,
         [.balanceQuery s.out_token,
          .azeroTransfer env.caller
            (env.transferred_value - env.transferred_value
              * env.contract_balance
              / (env.transferred_value * s.out_unit / s.in_unit)),
          .psp22Transfer s.out_token env.caller
            (env.transferred_value * env.contract_balance
              / (env.transferred_value * s.out_unit / s.in_unit)
              * s.out_unit / s.in_unit)])) := by
  refine ⟨?_, ?_, ?_, ?_⟩
  · unfold buy
    by_cases h0 : env.transferred_value = 0
    · rw [if_pos h0]; exact ⟨0, 0, 0, Or.inl rfl⟩
    rw [if_neg h0]
    by_cases h1 : s.in_unit = 0
    · rw [if_pos h1]; exact ⟨0, 0, 0, Or.inl rfl⟩
    rw [if_neg h1]
    by_cases h2 : env.transferred_value % s.in_unit > 0
    · rw [if_pos h2]; exact ⟨0, 0, 0, Or.inl rfl⟩
    rw [if_neg h2]
    by_cases h3 : env.contract_balance = 0
    · rw [if_pos h3]; exact ⟨0, 0, 0, Or.inr (Or.inl rfl)⟩
    rw [if_neg h3]
    by_cases h4 : U128_LIMIT ≤ env.transferred_value * s.out_unit
    · rw [if_pos h4]; exact ⟨0, 0, 0, Or.inr (Or.inl rfl)⟩
    rw [if_neg h4]
    by_cases h5 : env.transferred_value * s.out_unit / s.in_unit
        ≤ env.contract_balance
    · rw [if_pos h5]
      exact buy_refund_trace_shapes s env env.transferred_value
        env.transferred_value
    rw [if_neg h5]
    by_cases h6 : U128_LIMIT ≤ env.transferred_value * env.contract_balance
        / (env.transferred_value * s.out_unit / s.in_unit)
    · rw [if_pos h6]; exact ⟨0, 0, 0, Or.inr (Or.inl rfl)⟩
    rw [if_neg h6]
    exact buy_refund_trace_shapes s env env.transferred_value
      (env.transferred_value * env.contract_balance
        / (env.transferred_value * s.out_unit / s.in_unit))
  · intro hnz hiu hmul hc hdo hpart htv hro
    have hiu' : ¬ s.in_unit = 0 := Nat.pos_iff_ne_zero.mp hiu
    have hm_lt : env.transferred_value * env.contract_balance
        / (env.transferred_value * s.out_unit / s.in_unit)
        < env.transferred_value :=
      div_lt_of_lt_den _ _ _ (Nat.pos_of_ne_zero hnz) hpart
    unfold buy
    rw [if_neg hnz, if_neg hiu', if_neg (by simp [hmul]), if_neg hc,
      if_neg (not_le.mpr hdo), if_neg (not_le.mpr hpart),
      if_neg (not_le.mpr (lt_trans hm_lt htv))]
    unfold buy_refund
    rw [if_pos hm_lt, hro]
    simp [transfer_azero]
  · intro e hnz hiu hmul hc hdo hfull hte
    have hiu' : ¬ s.in_unit = 0 := Nat.pos_iff_ne_zero.mp hiu
    unfold buy
    rw [if_neg hnz, if_neg hiu', if_neg (by simp [hmul]), if_neg hc,
      if_neg (not_le.mpr hdo), if_pos hfull]
    unfold buy_refund
    rw [if_neg (lt_irrefl _)]
    unfold buy_settle
    rw [if_neg (not_le.mpr (lt_of_le_of_lt (Nat.div_le_self _ _) hdo)), hte]
    rfl
  · intro e hnz hiu hmul hc hdo hpart htv hcb hro hte
    have hiu' : ¬ s.in_unit = 0 := Nat.pos_iff_ne_zero.mp hiu
    have hm_lt : env.transferred_value * env.contract_balance
        / (env.transferred_value * s.out_unit / s.in_unit)
        < env.transferred_value :=
      div_lt_of_lt_den _ _ _ (Nat.pos_of_ne_zero hnz) hpart
    have hout_le := partial_out_le s.in_unit s.out_unit env.transferred_value
      env.contract_balance hiu (Nat.pos_of_ne_zero hc) hpart
    unfold buy
    rw [if_neg hnz, if_neg hiu', if_neg (by simp [hmul]), if_neg hc,
      if_neg (not_le.mpr hdo), if_neg (not_le.mpr hpart),
      if_neg (not_le.mpr (lt_trans hm_lt htv))]
    unfold buy_refund
    rw [if_pos hm_lt, hro]
    simp only [transfer_azero, if_true]
    unfold buy_settle
    rw [if_neg (not_le.mpr (lt_of_le_of_lt hout_le hcb)), hte]
    rfl

/-- Witness for C5: a concrete partial fill whose refund transfer fails stops
after the refund attempt with the insufficient-balance error. -/
theorem buy_transfer_order_witness :
    buy ⟨0, 1, 250, 1⟩ ⟨2, 1250, 3, false, none, true⟩ =
      (.err (.UnprocessableEntity "Insufficient AZERO balance"),
       [.balanceQuery 1, .azeroTransfer 2 500]) := by
  have h := (buy_transfer_order ⟨0, 1, 250, 1⟩
    ⟨2, 1250, 3, false, none, true⟩).2.1 (by decide) (by decide) (by decide)
    (by decide) (by decide) (by decide) (by decide) rfl
  simpa using h

/-- Witness for C9 at a concrete input: the admin deposits a valid multiple. -/
theorem add_amount_for_sale_admin_witness :
    add_amount_for_sale ⟨0, 1, 250, 5⟩ 0 10 none =
      (.ok (), [.psp22TransferFrom 1 0 10]) :=
  (add_amount_for_sale_admin ⟨0, 1, 250, 5⟩ 0 10 none rfl
    (by decide)).2.1 (by decide) (by decide) rfl

/-- C10: no public operation modifies the stored fields after construction:
any sequence of `buy` and `add_amount_for_sale` calls (whatever their
outcomes) leaves the storage unchanged — neither message body assigns to a
stored field, and the storage holds nothing but the four configuration fields
— so `config` returns the identical snapshot of `admin`, `out_token`,
`in_unit`, `out_unit` across repeated calls. -/
theorem config_immutable (s : AZTokenSale) (calls : List Call) :
    exec s calls = s ∧
    config (exec s calls) = config s ∧
    config s = ⟨s.admin, s.out_token, s.in_unit, s.out_unit⟩ := by
  have h : exec s calls = s := by
    induction calls with
    | nil => rfl
    | cons c cs ih =>
      cases c <;>
        simpa [exec, step, buy_post_state, add_amount_for_sale_post_state]
          using ih
  exact ⟨h, by rw [h], rfl⟩

end AzTokenSale
